import Mathlib

/-
Verification of the multi-bank payment-gateway core (integracion_bancaria).

This file gives a shallow embedding, in Lean 4, of the parts of the code
base that the specification's claims talk about:

  * `src/db/connector.py`          — `ejecutar_sp_generico`, the generic
    stored-procedure executor, together with its resource cleanup;
  * `src/db/repository.py`         — `guardar_transaccion_sp`;
  * `src/services/r4_services.py`  — `procesar_notificacion_pago` and
    `verificar_pago` (the float-arithmetic `procesar_gestion_pagos` is
    deliberately not embedded: its 0.01-tolerance check lives in IEEE-754
    binary64 and has no faithful exact-arithmetic counterpart);
  * `src/core/auth.py`             — `HMAC_CONFIG`, `validar_uuid`,
    `validar_hmac_generico`, `ip_whitelist_middleware`;
  * `src/core/config.py`           — `Config` / `get_r4_config`;
  * `src/core/bank_registry.py`    — `BANK_CONFIG`, `ALIAS_INDEX`,
    `get_bank_config`, `get_service_for_bank`.

Python dictionaries are modelled as association lists over a small dynamic
value type `PyVal`; Python truthiness, `dict.get`, `or`-chaining and `==`
are modelled explicitly.  The database and the outbound bank HTTP call are
external collaborators and enter as oracle parameters: a `DbOracle`
describes one possible behaviour of the MySQL driver for one call, and the
executor is a pure function of that oracle.  Exceptions are modelled by
`Option String` / `Except String` outcomes on each suspension point.
-/

namespace IntegracionBancaria

/-! ## Python value model -/

/-- A small model of the Python runtime values that flow through the code:
`None`, strings, integers, and tuples/lists of strings (used only for the
`allowed_ips` entry of the R4 config). -/
inductive PyVal where
  | null : PyVal
  | str (s : String) : PyVal
  | int (n : Int) : PyVal
  | strs (l : List String) : PyVal
deriving DecidableEq, Repr

/-- Python truthiness: `None`, `""`, `0` and empty tuples are falsy. -/
def PyVal.truthy : PyVal → Bool
  | .null => false
  | .str s => s != ""
  | .int n => n != 0
  | .strs l => !l.isEmpty

/-- Python `==` on the values we model: `None == None` is `True`, values of
different runtime types compare unequal. -/
def PyVal.pyEq : PyVal → PyVal → Bool
  | .null, .null => true
  | .str a, .str b => a == b
  | .int a, .int b => a == b
  | .strs a, .strs b => a == b
  | _, _ => false

/-- Python `str()` for the values we model (only ever applied to strings
and integers along the verified paths). -/
def PyVal.pyToStr : PyVal → String
  | .null => "None"
  | .str s => s
  | .int n => toString n
  | .strs l => toString l

/-- A Python dict with string keys, as an association list (keys are unique
in all the dictionaries the code builds). -/
abbrev PyDict := List (String × PyVal)

/-- First-match lookup in an association list (Python `dict[...]` /
`dict.get`; the dictionaries modelled here have unique keys). -/
def lookupStr {α : Type} : List (String × α) → String → Option α
  | [], _ => none
  | (k, v) :: rest, key => if k == key then some v else lookupStr rest key

/-- Python `d.get(k)`: `None` when the key is absent. -/
def pget (d : PyDict) (k : String) : PyVal := (lookupStr d k).getD .null

/-- Python `d.get(k, dflt)`. -/
def pgetD (d : PyDict) (k : String) (dflt : PyVal) : PyVal := (lookupStr d k).getD dflt

/-- Python `a or b` (value-returning, truthiness-driven). -/
def pyOr (a b : PyVal) : PyVal := if a.truthy then a else b

/-- Truthiness of `s.strip()` for a Python string: true iff some character
is not whitespace. -/
def strippedTruthy (s : String) : Bool := s.data.any (fun c => !c.isWhitespace)

/-- Helper for `pySplitComma`: walk the characters, cutting at commas. -/
def splitCommaAux : List Char → List Char → List String
  | [], acc => [String.mk acc.reverse]
  | c :: rest, acc =>
    if c = ',' then String.mk acc.reverse :: splitCommaAux rest []
    else splitCommaAux rest (c :: acc)

/-- Python `s.split(",")` (in particular `"".split(",") == [""]`). -/
def pySplitComma (s : String) : List String := splitCommaAux s.data []

/-- One row of a tabular result set. -/
abbrev Row := List PyVal

/-- What the `CALL` produced when it did not raise: the sequence of
per-statement results (`some rows` when `cursor.description` is non-null,
i.e. a SELECT-shaped result; `none` for a DML statement), and the final
`cursor.rowcount`. -/
structure CallData where
  sets : List (Option (List Row))
  rowcount : Int
deriving DecidableEq, Repr

/-- One possible behaviour of the MySQL driver for a single executor call.
Each `Option String` is `some message` when the corresponding suspension
point raises, and `outVar i` is the value the session variable
`@_{sp}_{i}` holds after the `CALL` (`PyVal.null` — SQL `NULL` — when the
procedure never assigned the corresponding OUT parameter). -/
structure DbOracle where
  acquireErr : Option String
  cursorErr : Option String
  callResult : Except String CallData
  outVar : Nat → PyVal
  outQueryErr : Option String

/-- The envelope `ejecutar_sp_generico` returns. -/
structure SpEnvelope where
  exito : Bool
  sp : String
  resultados : List (List Row)
  parametros_out : PyDict
  filas_afectadas : Int
  error : Option String
deriving DecidableEq, Repr

/-- What happened in the guaranteed-cleanup (`finally`) phase. -/
structure Cleanup where
  cursorCreated : Bool
  cursorClosed : Bool
  released : Bool
deriving DecidableEq, Repr

/-- The failure envelope built in the `except` branch of
`ejecutar_sp_generico`. -/
def failEnvelope (sp msg : String) : SpEnvelope :=
  { exito := false, sp := sp, resultados := [], parametros_out := [],
    filas_afectadas := 0, error := some msg }

/-- The `valores_out` dictionary: the loop over `parametros_out` maps each
declared name, in order, to the session variable `@_{sp}_{base+i}`. -/
def outValores (o : DbOracle) : Nat → List String → PyDict
  | _, [] => []
  | base, n :: rest => (n, o.outVar base) :: outValores o (base + 1) rest

/-- Shallow embedding of `ejecutar_sp_generico`.  `externalConn` is true
when the caller supplied a connection.  Returns the envelope together with
the cleanup record describing the `finally` block. -/
def ejecutarSpGenerico (o : DbOracle) (externalConn : Bool) (sp : String)
    (parametros_in : List PyVal) (parametros_out : List String) :
    SpEnvelope × Cleanup :=
  match externalConn, o.acquireErr with
  | false, some m =>
      -- pool creation / acquisition raised: no cursor exists and
      -- `connection` is still None, so the finally block does nothing
      (failEnvelope sp m, ⟨false, false, false⟩)
  | ext, _ =>
    -- a connection is available (caller-supplied, or acquired from the pool)
    let ownAcquired := !ext
    match o.cursorErr with
    | some m => (failEnvelope sp m, ⟨false, false, ownAcquired⟩)
    | none =>
      match o.callResult with
      | .error m => (failEnvelope sp m, ⟨true, true, ownAcquired⟩)
      | .ok cd =>
        let resultados := cd.sets.filterMap id
        if parametros_out.isEmpty then
          ({ exito := true, sp := sp, resultados := resultados,
             parametros_out := [], filas_afectadas := cd.rowcount,
             error := none }, ⟨true, true, ownAcquired⟩)
        else
          match o.outQueryErr with
          | some m => (failEnvelope sp m, ⟨true, true, ownAcquired⟩)
          | none =>
            ({ exito := true, sp := sp, resultados := resultados,
               parametros_out := outValores o parametros_in.length parametros_out,
               filas_afectadas := cd.rowcount, error := none },
             ⟨true, true, ownAcquired⟩)

/-- True when some exception is raised inside the `try` block of
`ejecutar_sp_generico` (pool acquisition, cursor creation, the `CALL`
itself, or the follow-up OUT-parameter `SELECT`). -/
def spRaised (o : DbOracle) (externalConn : Bool) (parametros_out : List String) : Bool :=
  (!externalConn && o.acquireErr.isSome) || o.cursorErr.isSome ||
  (match o.callResult with | .error _ => true | .ok _ => false) ||
  (!parametros_out.isEmpty && o.outQueryErr.isSome)

/-! ## Repository layer (`src/db/repository.py`) -/

/-- The nine positional IN parameters `guardar_transaccion_sp` extracts
from the notification payload, in SP order. -/
def notifIns (datos : PyDict) : List PyVal :=
  [ pgetD datos "IdComercio" (.str ""),
    pgetD datos "TelefonoComercio" (.str ""),
    pgetD datos "TelefonoEmisor" (.str ""),
    pgetD datos "Concepto" (.str ""),
    pgetD datos "BancoEmisor" (.str ""),
    pgetD datos "Monto" (.str ""),
    pgetD datos "FechaHora" (.str ""),
    pgetD datos "Referencia" (.str ""),
    pgetD datos "CodigoRed" (.str "") ]

/-- The structured response `guardar_transaccion_sp` builds from the
executor envelope. -/
structure RepoResp where
  resultsets : List (List Row)
  out_params : PyDict
  filas_afectadas : Int
  exito : Bool
  error : Option String
deriving DecidableEq, Repr

/-- Shallow embedding of `repository.guardar_transaccion_sp`: runs
`sp_guardar_notificacion_r4` with the nine IN parameters and the OUT names
`("p_mensaje", "p_codigo")`, on an internally acquired connection. -/
def guardarTransaccionSp (o : DbOracle) (datos : PyDict) : RepoResp :=
  let r := (ejecutarSpGenerico o false "sp_guardar_notificacion_r4"
              (notifIns datos) ["p_mensaje", "p_codigo"]).1
  { resultsets := r.resultados, out_params := r.parametros_out,
    filas_afectadas := r.filas_afectadas, exito := r.exito, error := r.error }

/-! ## Transaction orchestrator (`src/services/r4_services.py`) -/

/-- The dictionary `procesar_notificacion_pago` answers with. -/
structure NotifResult where
  abono : Bool
  mensaje : PyVal
  codigo : PyVal
deriving DecidableEq, Repr

/-- Shallow embedding of `R4Services.procesar_notificacion_pago`: persist
via `guardar_transaccion_sp`, read `p_mensaje` / `p_codigo` from the OUT
mapping (defaults `""` / `0` when the name is absent), and credit
(`abono`) exactly when `codigo_sp == 1`.  (The surrounding `try` only
guards the repository call, which itself never raises: all stored-procedure
failures already come back as `exito=False` envelopes.) -/
def procesarNotificacionPago (o : DbOracle) (datos : PyDict) : NotifResult :=
  let resultado := guardarTransaccionSp o datos
  let mensaje_sp := pgetD resultado.out_params "p_mensaje" (.str "")
  let codigo_sp := pgetD resultado.out_params "p_codigo" (.int 0)
  { abono := codigo_sp.pyEq (.int 1), mensaje := mensaje_sp, codigo := codigo_sp }

/-- True when the full `sp_guardar_notificacion_r4` execution (acquire,
cursor, `callproc`, OUT-parameter `SELECT`) succeeds. -/
def notifExecOk (o : DbOracle) : Bool :=
  o.acquireErr.isNone && o.cursorErr.isNone &&
  (match o.callResult with | .ok _ => true | .error _ => false) &&
  o.outQueryErr.isNone

/-- What `procesar_vuelto` handed back when `verificar_pago` re-queries the
bank live: the source always returns a dict with exactly the keys `code`,
`message` and `reference`, whatever the HTTP outcome, so the oracle is that
triple. -/
structure BankResp where
  code : PyVal
  message : PyVal
  reference : PyVal
deriving DecidableEq, Repr

/-- The dictionary `verificar_pago` answers with. -/
structure VerifResult where
  code : PyVal
  message : PyVal
  reference : PyVal
  abono_bd : Bool
  coincide_referencia : Bool
  code_banco : PyVal
  detalle_bd : Option PyDict
deriving DecidableEq, Repr

/-- Truthiness of `str(v or '').strip()` as used in the minimum-field check
of `verificar_pago`. -/
def stripTruthy (v : PyVal) : Bool := strippedTruthy (PyVal.pyToStr (pyOr v (.str "")))

/-- Shallow embedding of `R4Services.verificar_pago`.  `fila_bd` is the
row the repository lookup (`consultar_notificacion_por_referencia`)
produced (`bd_result.get("fila")`), and `bank` the response
`procesar_vuelto` would return if the live bank re-query is made. -/
def verificarPago (payload : PyDict) (fila_bd : Option PyDict) (bank : BankResp) :
    VerifResult :=
  let referencia := pget payload "Referencia"
  -- payload.get("verificacion", payload.get("_verificacion"))
  let verifFlag := match lookupStr payload "verificacion" with
    | some v => v
    | none => pget payload "_verificacion"
  let hacer := verifFlag.truthy
  let ref_bd := match fila_bd with
    | some f => pget f "Referencia"
    | none => PyVal.null
  -- abono_bd = bool(fila_bd): None and the empty dict are falsy
  let abono_bd := match fila_bd with
    | some f => !f.isEmpty
    | none => false
  let bankTriple :=
    if hacer then
      if !((pget payload "TelefonoDestino").truthy && (pget payload "Cedula").truthy
            && (pget payload "Banco").truthy && (pget payload "Monto").truthy) then
        -- raise ValueError(...), caught below as code "98"
        (PyVal.str "98",
         PyVal.str "Error verificando en banco: Faltan campos obligatorios para verificación en banco",
         PyVal.null)
      else
        let td := pyOr (pget payload "TelefonoDestino") (pget payload "TelefonoEmisor")
        let bco := pyOr (pget payload "Banco") (pget payload "BancoEmisor")
        let mto := pget payload "Monto"
        let ced := pget payload "Cedula"
        if stripTruthy td && stripTruthy bco && stripTruthy mto && stripTruthy ced then
          (bank.code, bank.message, bank.reference)
        else
          (PyVal.str "99", PyVal.str "Datos insuficientes para verificar en banco", PyVal.null)
    else (PyVal.null, PyVal.null, PyVal.null)
  let code_banco := bankTriple.1
  let message_banco := bankTriple.2.1
  let reference_banco := bankTriple.2.2
  -- coincide = bool(ref_bd and reference_banco and ref_bd == reference_banco)
  let coincide := ref_bd.truthy && reference_banco.truthy && ref_bd.pyEq reference_banco
  let fc :=
    if !abono_bd then
      (PyVal.str "04", PyVal.str "No se encontró la referencia en BD")
    else if hacer then
      if code_banco.pyEq (.str "00") && coincide then
        (PyVal.str "00", PyVal.str "Verificación exitosa en banco y BD")
      else
        (pyOr code_banco (.str "06"),
         pyOr message_banco (.str "No coincide referencia o banco reportó error"))
    else (PyVal.str "00", PyVal.str "Verificación exitosa en BD")
  let referencia_final := pyOr (pyOr reference_banco ref_bd) referencia
  { code := fc.1, message := fc.2, reference := referencia_final,
    abono_bd := abono_bd, coincide_referencia := coincide,
    code_banco := code_banco, detalle_bd := fila_bd }

/-! ## Configuration (`src/core/config.py`)

`Config` is computed once from the process environment; the environment is
abstracted as a partial map from variable names to values. -/

/-- A process environment: `none` when the variable is unset. -/
abbrev Env := String → Option String

/-- Python `os.getenv(name, default)`. -/
def getenv (env : Env) (name dflt : String) : String := (env name).getD dflt

/-- `Config.R4_MERCHANT_ID` (also used verbatim as `R4_SECRET_KEY`). -/
def r4MerchantId (env : Env) : String := getenv env "R4_MERCHANT_ID" "id_comercio"

/-- `Config.DEBUG`: read as a *string*, default `"False"`. -/
def debugStr (env : Env) : String := getenv env "DEBUG" "False"

/-- `Config.BANCO_IPS_PERMITIDAS`: split the environment value on commas
(Python `"".split(",")` gives `[""]`), then append `"127.0.0.1"` when the
string `DEBUG` is truthy, i.e. non-empty. -/
def bancoIpsPermitidas (env : Env) : List String :=
  let l := pySplitComma (getenv env "BANCO_IPS_PERMITIDAS" "")
  if debugStr env != "" then l ++ ["127.0.0.1"] else l

/-- `get_r4_config()`: the dictionary handed to the auth layer.  Note its
keys: there is no `"uuid"` entry. -/
def getR4Config (env : Env) : PyDict :=
  [ ("merchant_id", .str (r4MerchantId env)),
    ("secret_key", .str (r4MerchantId env)),
    ("timeout", .int 30),
    ("allowed_ips", .strs (bancoIpsPermitidas env)) ]

/-! ## Authentication (`src/core/auth.py`) -/

/-- One entry of `HMAC_CONFIG`: the ordered signed-field list, the join
separator, and whether the endpoint is token-only (`requires_uuid`).  (The
two token-only entries carry no `"separator"` key in the source; the field
is never read on that path.) -/
structure HmacCfg where
  params : List String
  separator : String
  requires_uuid : Bool
deriving DecidableEq, Repr

/-- The per-endpoint auth policy table `HMAC_CONFIG`. -/
def HMAC_CONFIG : List (String × HmacCfg) :=
  [ ("MBbcv", ⟨["Fechavalor", "Moneda"], "", false⟩),
    ("R4pagos", ⟨["monto", "fecha"], "", false⟩),
    ("MBvuelto", ⟨["TelefonoDestino", "Monto", "Banco", "Cedula"], "", false⟩),
    ("GenerarOtp", ⟨["Banco", "Monto", "Telefono", "Cedula"], "", false⟩),
    ("DebitoInmediato", ⟨["Banco", "Cedula", "Telefono", "Monto", "OTP"], "", false⟩),
    ("CreditoInmediato", ⟨["Banco", "Cedula", "Telefono", "Monto"], "", false⟩),
    ("DomiciliacionCNTA", ⟨["cuenta"], "", false⟩),
    ("DomiciliacionCELE", ⟨["telefono"], "", false⟩),
    ("ConsultarOperaciones", ⟨["id"], "", false⟩),
    ("CICuentas", ⟨["Cedula", "Cuenta", "Monto"], "", false⟩),
    ("MBc2p", ⟨["TelefonoDestino", "Monto", "Banco", "Cedula"], "", false⟩),
    ("MBanulacionC2P", ⟨["Banco"], "", false⟩),
    ("VerificoPago", ⟨["Referencia"], "", false⟩),
    ("R4consulta", ⟨[], "", true⟩),
    ("R4notifica", ⟨[], "", true⟩) ]

/-- Shallow embedding of `validar_uuid`: Python
`token == get_r4_config().get("uuid")`.  A missing key makes the right side
`None`; a string never equals `None`. -/
def validarUuid (env : Env) (token : String) : Bool :=
  match lookupStr (getR4Config env) "uuid" with
  | some (.str s) => token == s
  | some _ => false
  | none => false

/-- The outcome of an auth check: `ok`, or the `HTTPException` raised. -/
inductive AuthOutcome where
  | ok : AuthOutcome
  | httpError (status : Nat) (detail : String) : AuthOutcome
deriving DecidableEq, Repr

/-- The signed-field collection loop of `validar_hmac_generico`: walk the
policy's parameter list in order; the first field whose `payload.get` is
`None` (absent key, or key bound to `None`) aborts with that field's name;
otherwise collect `str(value)` for each field. -/
def collectParams (payload : PyDict) : List String → Except String (List String)
  | [] => .ok []
  | p :: rest =>
    match lookupStr payload p with
    | none => .error p
    | some .null => .error p
    | some v =>
      match collectParams payload rest with
      | .error q => .error q
      | .ok l => .ok (v.pyToStr :: l)

/-- Shallow embedding of `validar_hmac_generico`.  `hmacFn secret data` is
the hex HMAC-SHA256 (`calcular_hmac_r4`), abstracted as a function
parameter; `verificar_hmac_r4` is its constant-time comparison against the
supplied token. -/
def validarHmacGenerico (env : Env) (hmacFn : String → String → String)
    (endpoint : String) (authorization : Option String) (payload : PyDict) :
    AuthOutcome :=
  match authorization with
  | none => .httpError 401 "Authorization header requerido"
  | some auth =>
    if auth == "" then .httpError 401 "Authorization header requerido"
    else
      match lookupStr HMAC_CONFIG endpoint with
      | none => .httpError 500 "Error de configuración de seguridad"
      | some cfg =>
        if cfg.requires_uuid then
          if !(validarUuid env auth) then
            .httpError 401 "Token Authorization debe ser UUID válido"
          else .ok
        else
          match collectParams payload cfg.params with
          | .error p => .httpError 400 ("Parámetro " ++ p ++ " requerido para autenticación")
          | .ok parts =>
            let data_string := String.intercalate cfg.separator parts
            if hmacFn (r4MerchantId env) data_string == auth then .ok
            else .httpError 401 "Firma HMAC inválida"

/-- Shallow embedding of `ip_whitelist_middleware`: the client address is
the `X-Forwarded-For` header when present, else `X-Real-IP`, else the
socket peer; the request passes iff that address is in
`allowed_ips`. -/
def ipWhitelistAllows (env : Env) (headers : List (String × String))
    (socketHost : String) : Bool :=
  let client_ip :=
    match lookupStr headers "X-Forwarded-For" with
    | some v => v
    | none =>
      match lookupStr headers "X-Real-IP" with
      | some v => v
      | none => socketHost
  (bancoIpsPermitidas env).contains client_ip

/-! ## Bank registry (`src/core/bank_registry.py`) -/

/-- Looking a name up in `valores_out` succeeds exactly when the name is
among the declared OUT-parameter names. -/
theorem outValores_lookup_isSome (o : DbOracle) :
    ∀ (pout : List String) (base : Nat) (name : String),
      (lookupStr (outValores o base pout) name).isSome = pout.contains name := by
  intro pout
  induction pout with
  | nil => intro base name; rfl
  | cons n rest ih =>
    intro base name
    by_cases h : n = name
    · subst h
      simp [outValores, lookupStr]
    · simp [outValores, lookupStr, h, ih, Ne.symm h]

/-- Unfolding equation: no declared OUT names give an empty mapping. -/
theorem outValores_nil (o : DbOracle) (base : Nat) : outValores o base [] = [] := rfl

/-- Unfolding equation: lookup in the empty dictionary. -/
theorem lookupStr_nil {α : Type} (name : String) :
    lookupStr ([] : List (String × α)) name = none := rfl

/-- Python `v == 1` holds exactly for the integer value `1`. -/
theorem pyEq_int_iff (v : PyVal) (n : Int) : v.pyEq (.int n) = true ↔ v = .int n := by
  cases v <;> simp [PyVal.pyEq]

/-! ## Claims about the stored-procedure executor -/

/-- C2: for every procedure name, input tuple and output-name tuple, if any
exception is raised while executing the stored procedure then
`ejecutar_sp_generico` returns the structured failure envelope
(`exito=false`, `resultados=[]`, `parametros_out={}`,
`filas_afectadas=0`, non-null `error`) instead of propagating; and every
returned envelope satisfies the invariant that `exito=false` implies
`resultados` is empty and `error` is non-null. -/
theorem ejecutar_sp_failure_envelope (o : DbOracle) (ext : Bool) (sp : String)
    (pin : List PyVal) (pout : List String) :
    (spRaised o ext pout = true →
      (ejecutarSpGenerico o ext sp pin pout).1.exito = false ∧
      (ejecutarSpGenerico o ext sp pin pout).1.resultados = [] ∧
      (ejecutarSpGenerico o ext sp pin pout).1.parametros_out = [] ∧
      (ejecutarSpGenerico o ext sp pin pout).1.filas_afectadas = 0 ∧
      (ejecutarSpGenerico o ext sp pin pout).1.error.isSome = true) ∧
    ((ejecutarSpGenerico o ext sp pin pout).1.exito = false →
      (ejecutarSpGenerico o ext sp pin pout).1.resultados = [] ∧
      (ejecutarSpGenerico o ext sp pin pout).1.error.isSome = true) := by
  obtain ⟨aq, cu, cr, ov, oq⟩ := o
  cases ext <;> cases aq <;> cases cu <;> cases cr <;> cases oq <;> cases pout <;>
    simp [ejecutarSpGenerico, spRaised, failEnvelope]

/-- C9: on every exit path of `ejecutar_sp_generico` the cursor is closed
exactly when it was created, and the connection is released back to the
pool exactly when it was acquired internally (so a caller-supplied
connection is never released). -/
theorem ejecutar_sp_cleanup (o : DbOracle) (ext : Bool) (sp : String)
    (pin : List PyVal) (pout : List String) :
    (ejecutarSpGenerico o ext sp pin pout).2.cursorClosed =
      (ejecutarSpGenerico o ext sp pin pout).2.cursorCreated ∧
    (ejecutarSpGenerico o ext sp pin pout).2.released = (!ext && o.acquireErr.isNone) := by
  obtain ⟨aq, cu, cr, ov, oq⟩ := o
  cases ext <;> cases aq <;> cases cu <;> cases cr <;> cases oq <;> cases pout <;>
    simp [ejecutarSpGenerico]

/-- A driver behaviour where everything succeeds, the `CALL` produces no
result set, and the procedure assigns none of its OUT parameters (all
session variables still hold SQL `NULL`). -/
def oracleOkNull : DbOracle :=
  { acquireErr := none, cursorErr := none, callResult := .ok ⟨[], 0⟩,
    outVar := fun _ => .null, outQueryErr := none }

/-- A driver behaviour where the `CALL` itself raises. -/
def oracleCallFails : DbOracle :=
  { acquireErr := none, cursorErr := none,
    callResult := .error "Deadlock found when trying to get lock",
    outVar := fun _ => .null, outQueryErr := none }

/-- Witness for C2 at a concrete failing call. -/
theorem ejecutar_sp_failure_envelope_witness :
    spRaised oracleCallFails false ["p_mensaje"] = true ∧
    (ejecutarSpGenerico oracleCallFails false "sp_guardar_notificacion_r4" []
      ["p_mensaje"]).1.exito = false ∧
    (ejecutarSpGenerico oracleCallFails false "sp_guardar_notificacion_r4" []
      ["p_mensaje"]).1.resultados = [] ∧
    (ejecutarSpGenerico oracleCallFails false "sp_guardar_notificacion_r4" []
      ["p_mensaje"]).1.error.isSome = true := by
  have h := ejecutar_sp_failure_envelope oracleCallFails false
    "sp_guardar_notificacion_r4" [] ["p_mensaje"]
  have h1 := h.1 (by decide)
  exact ⟨by decide, h1.1, h1.2.1, h1.2.2.2.2⟩

/-- C6 (counterexample): on a successful call that declares
`("p_mensaje", "p_codigo")` but whose procedure assigns neither, the OUT
mapping binds `p_codigo` to `NULL`/`None` — not to the empty string or
zero as claimed; and when the execution fails, the mapping does not even
contain the declared name. -/
theorem out_params_null_not_empty_default :
    lookupStr ((ejecutarSpGenerico oracleOkNull false "sp_guardar_notificacion_r4"
        [] ["p_mensaje", "p_codigo"]).1.parametros_out) "p_codigo" = some PyVal.null ∧
    ¬ (lookupStr ((ejecutarSpGenerico oracleOkNull false "sp_guardar_notificacion_r4"
          [] ["p_mensaje", "p_codigo"]).1.parametros_out) "p_codigo" = some (.str "") ∨
       lookupStr ((ejecutarSpGenerico oracleOkNull false "sp_guardar_notificacion_r4"
          [] ["p_mensaje", "p_codigo"]).1.parametros_out) "p_codigo" = some (.int 0)) ∧
    lookupStr ((ejecutarSpGenerico oracleCallFails false "sp_guardar_notificacion_r4"
        [] ["p_mensaje", "p_codigo"]).1.parametros_out) "p_codigo" = none := by
  decide

/-- C6 (amended): on successful execution the `parametros_out` mapping
binds exactly the declared names, in order, each to the session-variable
value the procedure left behind (SQL `NULL` when it never assigned it), so
no declared name is ever absent; on failure the mapping is empty; an
empty output-name tuple always yields an empty mapping, and whenever the
`CALL` produced no SELECT-shaped result set, `resultados` is the empty
list, never null. -/
theorem ejecutar_sp_out_params_amended (o : DbOracle) (ext : Bool) (sp : String)
    (pin : List PyVal) (pout : List String) :
    ((ejecutarSpGenerico o ext sp pin pout).1.exito = true →
      (ejecutarSpGenerico o ext sp pin pout).1.parametros_out =
        outValores o pin.length pout ∧
      ∀ name, (lookupStr (ejecutarSpGenerico o ext sp pin pout).1.parametros_out
          name).isSome = pout.contains name) ∧
    ((ejecutarSpGenerico o ext sp pin pout).1.exito = false →
      (ejecutarSpGenerico o ext sp pin pout).1.parametros_out = []) ∧
    (pout = [] → (ejecutarSpGenerico o ext sp pin pout).1.parametros_out = []) ∧
    (∀ cd, o.callResult = .ok cd → cd.sets.filterMap id = [] →
      (ejecutarSpGenerico o ext sp pin pout).1.resultados = []) := by
  obtain ⟨aq, cu, cr, ov, oq⟩ := o
  cases ext <;> cases aq <;> cases cu <;> cases cr <;> cases oq <;> cases pout <;>
    simp [ejecutarSpGenerico, failEnvelope, outValores_lookup_isSome, outValores_nil,
      lookupStr_nil]

/-- Witness for the amended C6 at a concrete successful call. -/
theorem ejecutar_sp_out_params_amended_witness :
    (ejecutarSpGenerico oracleOkNull false "sp_guardar_notificacion_r4" []
        ["p_mensaje", "p_codigo"]).1.parametros_out =
      outValores oracleOkNull 0 ["p_mensaje", "p_codigo"] ∧
    (ejecutarSpGenerico oracleOkNull false "sp_guardar_notificacion_r4" []
        ["p_mensaje", "p_codigo"]).1.resultados = [] := by
  have h := ejecutar_sp_out_params_amended oracleOkNull false
    "sp_guardar_notificacion_r4" [] ["p_mensaje", "p_codigo"]
  exact ⟨(h.1 (by decide)).1, h.2.2.2 ⟨[], 0⟩ rfl rfl⟩

/-! ## Claims about the notification orchestrator -/

/-- When the whole `sp_guardar_notificacion_r4` round-trip succeeds,
`procesar_notificacion_pago` reads back exactly the two session variables:
`p_mensaje` is `@_{sp}_9` and `p_codigo` is `@_{sp}_10` (nine IN
parameters precede them). -/
theorem notif_success_eq (o : DbOracle) (datos : PyDict) (h : notifExecOk o = true) :
    procesarNotificacionPago o datos =
      { abono := (o.outVar 10).pyEq (.int 1), mensaje := o.outVar 9,
        codigo := o.outVar 10 } := by
  obtain ⟨aq, cu, cr, ov, oq⟩ := o
  cases aq <;> cases cu <;> cases cr <;> cases oq <;>
    simp_all [notifExecOk, procesarNotificacionPago, guardarTransaccionSp,
      ejecutarSpGenerico, notifIns, outValores, pgetD, lookupStr]

/-- When the `sp_guardar_notificacion_r4` round-trip fails, the OUT mapping
is empty, so the defaults `""` / `0` apply and the payment is not
credited. -/
theorem notif_failure_eq (o : DbOracle) (datos : PyDict) (h : notifExecOk o = false) :
    procesarNotificacionPago o datos =
      { abono := false, mensaje := .str "", codigo := .int 0 } := by
  obtain ⟨aq, cu, cr, ov, oq⟩ := o
  cases aq <;> cases cu <;> cases cr <;> cases oq <;>
    simp_all [notifExecOk, procesarNotificacionPago, guardarTransaccionSp,
      ejecutarSpGenerico, notifIns, outValores, pgetD, lookupStr, failEnvelope,
      PyVal.pyEq]

/-- C4: `procesar_notificacion_pago` credits (`abono=true`) exactly when
the save-notification stored procedure executed successfully and its
output code `p_codigo` equals the integer `1`; on a successful execution
with `p_codigo = 0` (duplicate reference) it returns `abono=false`
together with the stored procedure's own message, still as a normal
response; and on any execution failure it returns `abono=false`
(fail-closed, with the defaulted message and code). -/
theorem procesar_notificacion_abono (o : DbOracle) (datos : PyDict) :
    ((procesarNotificacionPago o datos).abono = true ↔
      (notifExecOk o = true ∧ o.outVar 10 = .int 1)) ∧
    (notifExecOk o = true → o.outVar 10 = .int 0 →
      (procesarNotificacionPago o datos).abono = false ∧
      (procesarNotificacionPago o datos).mensaje = o.outVar 9) ∧
    (notifExecOk o = false →
      (procesarNotificacionPago o datos).abono = false ∧
      (procesarNotificacionPago o datos).mensaje = .str "" ∧
      (procesarNotificacionPago o datos).codigo = .int 0) := by
  by_cases hok : notifExecOk o = true
  · rw [notif_success_eq o datos hok]
    refine ⟨by simp [hok, pyEq_int_iff], ?_, ?_⟩
    · intro _ h10
      simp [h10, PyVal.pyEq]
    · intro hbad
      rw [hok] at hbad
      cases hbad
  · have hko : notifExecOk o = false := by
      revert hok
      cases notifExecOk o <;> simp
    rw [notif_failure_eq o datos hko]
    refine ⟨by simp [hko, PyVal.pyEq], ?_, fun _ => ⟨rfl, rfl, rfl⟩⟩
    intro hbad
    rw [hko] at hbad
    cases hbad

/-- A driver behaviour where the procedure accepted the notification:
`p_mensaje` is set to a message and `p_codigo` to `1`. -/
def oracleAccepted : DbOracle :=
  { acquireErr := none, cursorErr := none, callResult := .ok ⟨[], 1⟩,
    outVar := fun i => if i == 10 then .int 1 else .str "TRANSACCION EXITOSA",
    outQueryErr := none }

/-- Witness for C4 at a concrete accepted notification. -/
theorem procesar_notificacion_abono_witness :
    (procesarNotificacionPago oracleAccepted
      [("Referencia", .str "000012345678")]).abono = true ∧
    (procesarNotificacionPago oracleCallFails
      [("Referencia", .str "000012345678")]).abono = false := by
  refine ⟨?_, ?_⟩
  · exact (procesar_notificacion_abono oracleAccepted
      [("Referencia", .str "000012345678")]).1.mpr ⟨by decide, by decide⟩
  · exact ((procesar_notificacion_abono oracleCallFails
      [("Referencia", .str "000012345678")]).2.2 (by decide)).1

/-! ## Claim about payment verification -/

/-- The payload of the C1 counterexample: live verification is requested
and all four mandatory bank-verification fields are present. -/
def payloadMismatch : PyDict :=
  [ ("Referencia", .str "000012345678"), ("verificacion", .str "1"),
    ("TelefonoDestino", .str "04141234567"), ("Cedula", .str "V12345678"),
    ("Banco", .str "0134"), ("Monto", .str "150.00") ]

/-- The locally persisted row found for the reference. -/
def filaMismatch : PyDict := [("Referencia", .str "000012345678")]

/-- The live bank answer: the bank confirms (`code = "00"`) but reports a
*different* reference. -/
def bankMismatch : BankResp :=
  { code := .str "00", message := .str "TRANSACCION EXITOSA",
    reference := .str "000099999999" }

/-- C1: evaluation of `verificar_pago` at the failing input.  The local
record exists, live verification was requested, the bank confirmed with
code `"00"`, and the bank-returned reference does **not** match the
locally persisted one (`coincide_referencia = false`) — yet the final code
is `"00"`: the else-branch computes `code_final = code_banco or "06"`,
which passes the bank's `"00"` through instead of a non-zero mismatch
code. -/
theorem verificar_pago_mismatch_final_00 :
    (verificarPago payloadMismatch (some filaMismatch) bankMismatch).code =
      .str "00" ∧
    (verificarPago payloadMismatch (some filaMismatch) bankMismatch).abono_bd =
      true ∧
    (verificarPago payloadMismatch (some filaMismatch) bankMismatch).code_banco =
      .str "00" ∧
    (verificarPago payloadMismatch (some filaMismatch)
      bankMismatch).coincide_referencia = false := by
  decide

/-! ## Claims about the bank registry -/

/-- The R4 configuration dictionary has no `"uuid"` entry, so
`validar_uuid` compares the caller's token against Python `None` and
rejects it, whatever the environment and the token. -/
theorem validarUuid_false (env : Env) (token : String) :
    validarUuid env token = false := rfl

/-- C3: for the token-only operations `R4consulta` and `R4notifica`,
`validar_hmac_generico` accepts **no** token at all: `get_r4_config()`
carries no `"uuid"` key, so `validar_uuid` compares every token against
`None` and every request is rejected with a 401 error (missing-header for
the empty token, invalid-token for every other) — no accepted token
exists, contrary to the claimed acceptance of the configured value. -/
theorem token_only_auth_rejects_every_token (env : Env) (token : String) :
    validarUuid env token = false ∧
    ∀ (hmacFn : String → String → String) (payload : PyDict),
      validarHmacGenerico env hmacFn "R4consulta" (some token) payload =
        (if token == "" then .httpError 401 "Authorization header requerido"
         else .httpError 401 "Token Authorization debe ser UUID válido") ∧
      validarHmacGenerico env hmacFn "R4notifica" (some token) payload =
        (if token == "" then .httpError 401 "Authorization header requerido"
         else .httpError 401 "Token Authorization debe ser UUID válido") := by
  refine ⟨validarUuid_false env token, ?_⟩
  intro hmacFn payload
  by_cases ht : token == "" <;>
    constructor <;>
      simp [validarHmacGenerico, ht, HMAC_CONFIG, lookupStr, validarUuid_false]

/-! ## Claims about the IP allow-list configuration -/

/-- An environment where the `DEBUG` variable is set to the empty string
(e.g. a `.env` line reading `DEBUG=`). -/
def envEmptyDebug : Env := fun k => if k == "DEBUG" then some "" else none

/-- C10 (counterexample): with `DEBUG` set to the empty string, the string
read from the environment is falsy, `"127.0.0.1"` is *not* appended to the
allow-list (which is then the singleton `[""]`), and the request carrying
`X-Forwarded-For: 127.0.0.1` is rejected — the DEBUG string is not
"always truthy". -/
theorem debug_empty_omits_localhost :
    "127.0.0.1" ∉ bancoIpsPermitidas envEmptyDebug ∧
    ipWhitelistAllows envEmptyDebug [("X-Forwarded-For", "127.0.0.1")]
      "127.0.0.1" = false := by
  decide

/-- C10 (amended): in every environment in which `DEBUG` is unset or set to
a non-empty string — in particular under the default, where the literal
string `"False"` is truthy — the allow-list tuple contains `"127.0.0.1"`,
and any request whose `X-Forwarded-For` header is `127.0.0.1` passes the
IP allow-list check. -/
theorem allowlist_contains_localhost (env : Env) (hdbg : env "DEBUG" ≠ some "") :
    "127.0.0.1" ∈ bancoIpsPermitidas env ∧
    ∀ (headers : List (String × String)) (socketHost : String),
      lookupStr headers "X-Forwarded-For" = some "127.0.0.1" →
      ipWhitelistAllows env headers socketHost = true := by
  have hne : debugStr env ≠ "" := by
    unfold debugStr getenv
    cases h : env "DEBUG" with
    | none => simp
    | some s =>
      simp only [Option.getD_some]
      intro hs
      exact hdbg (by rw [h, hs])
  have hmem : "127.0.0.1" ∈ bancoIpsPermitidas env := by
    unfold bancoIpsPermitidas
    rw [if_pos (by simpa using hne)]
    simp
  refine ⟨hmem, ?_⟩
  intro headers socketHost hxff
  unfold ipWhitelistAllows
  rw [hxff]
  exact List.elem_eq_true_of_mem hmem

/-- Witness for the amended C10 in the default (empty) environment. -/
theorem allowlist_contains_localhost_witness :
    "127.0.0.1" ∈ bancoIpsPermitidas (fun _ => none) ∧
    ipWhitelistAllows (fun _ => none) [("X-Forwarded-For", "127.0.0.1")]
      "203.0.113.9" = true := by
  have h := allowlist_contains_localhost (fun _ => none) (by simp)
  exact ⟨h.1, h.2 [("X-Forwarded-For", "127.0.0.1")] "203.0.113.9" (by decide)⟩

/-! ## Supporting facts about HMAC-policy verification

The HMAC function itself (`calcular_hmac_r4`, i.e. hex HMAC-SHA256 from
`hashlib`) is an external primitive and stays abstract; the following
theorems characterise everything `validar_hmac_generico` adds around it.
The remaining spec clause — that altering a character of a *field value*
always changes the verification outcome — is exactly second-preimage
freedom of HMAC-SHA256 on the two canonical strings and is not settled
here. -/

/-- For an endpoint with an HMAC policy and a non-empty token, a missing
signed field aborts with the 400 error naming that field (the first
missing field in policy order). -/
theorem hmac_policy_missing_field (env : Env) (hmacFn : String → String → String)
    (ep : String) (cfg : HmacCfg) (auth : String) (payload : PyDict) (p : String)
    (hcfg : lookupStr HMAC_CONFIG ep = some cfg) (hru : cfg.requires_uuid = false)
    (hne : auth ≠ "") (herr : collectParams payload cfg.params = .error p) :
    validarHmacGenerico env hmacFn ep (some auth) payload =
      .httpError 400 ("Parámetro " ++ p ++ " requerido para autenticación") := by
  have hb : (auth == "") = false := by simp [hne]
  simp [validarHmacGenerico, hb, hcfg, hru, herr]

/-- For an endpoint with an HMAC policy, a non-empty token and all signed
fields present, the request is accepted exactly when the token equals the
HMAC of the fields' string forms joined, in policy order, with the
policy's separator, under the shared secret (`merchant_id`); otherwise the
401 invalid-signature error is raised. -/
theorem hmac_policy_accepts_iff (env : Env) (hmacFn : String → String → String)
    (ep : String) (cfg : HmacCfg) (auth : String) (payload : PyDict)
    (parts : List String)
    (hcfg : lookupStr HMAC_CONFIG ep = some cfg) (hru : cfg.requires_uuid = false)
    (hne : auth ≠ "") (hok : collectParams payload cfg.params = .ok parts) :
    (validarHmacGenerico env hmacFn ep (some auth) payload = .ok ↔
      hmacFn (r4MerchantId env) (String.intercalate cfg.separator parts) = auth) ∧
    (hmacFn (r4MerchantId env) (String.intercalate cfg.separator parts) ≠ auth →
      validarHmacGenerico env hmacFn ep (some auth) payload =
        .httpError 401 "Firma HMAC inválida") := by
  have hb : (auth == "") = false := by simp [hne]
  by_cases hcmp : hmacFn (r4MerchantId env) (String.intercalate cfg.separator parts) = auth <;>
    simp [validarHmacGenerico, hb, hcfg, hru, hok, hcmp]

/-- Altering the signature of an accepted request makes verification fail:
any non-empty token other than the accepted one is rejected with the 401
invalid-signature error. -/
theorem hmac_policy_altered_signature (env : Env) (hmacFn : String → String → String)
    (ep : String) (cfg : HmacCfg) (auth auth2 : String) (payload : PyDict)
    (parts : List String)
    (hcfg : lookupStr HMAC_CONFIG ep = some cfg) (hru : cfg.requires_uuid = false)
    (hne : auth ≠ "") (hne2 : auth2 ≠ "") (hok : collectParams payload cfg.params = .ok parts)
    (hacc : validarHmacGenerico env hmacFn ep (some auth) payload = .ok)
    (hdiff : auth2 ≠ auth) :
    validarHmacGenerico env hmacFn ep (some auth2) payload =
      .httpError 401 "Firma HMAC inválida" := by
  have hsig := (hmac_policy_accepts_iff env hmacFn ep cfg auth payload parts
    hcfg hru hne hok).1.mp hacc
  exact (hmac_policy_accepts_iff env hmacFn ep cfg auth2 payload parts
    hcfg hru hne2 hok).2 (by rw [hsig]; exact fun h => hdiff h.symm)

end IntegracionBancaria
